import Mathlib

/-!
Verification development for the iceoryx experimental publisher core:
chunk allocation, the publisher port offer state machine, the RAII
`Sample` wrapper and the `BasePublisher` facade.  The port, sample and
publisher operations are modelled from the specification (their C++
implementation files are not part of the excerpt; only the module tests
are), instrumented with a call log so that "operation X is invoked
exactly once" properties can be stated as facts about the log.
-/

namespace Iceoryx

/-- Modelled from the spec: the closed allocation-error taxonomy (§7);
`RUNNING_OUT_OF_CHUNKS` is the only evidenced member. -/
inductive AllocationError where
  | RUNNING_OUT_OF_CHUNKS
deriving DecidableEq, Repr

/-- Modelled from the spec: a chunk header, identified by its address
within the pool segment (§3). -/
structure ChunkHeader where
  addr : Nat
deriving DecidableEq, Repr

/-- Modelled from the spec: fixed header overhead preceding the payload
region of a chunk (§3, "metadata record stored at a known offset
preceding the payload region"). -/
def headerSize : Nat := 32

/-- Modelled from the spec: `payload()` — computed pointer/offset to the
start of usable memory of a chunk (§3). -/
def ChunkHeader.payload (c : ChunkHeader) : Nat :=
  c.addr + headerSize

/-- One observable invocation of a publisher-port operation.  The log of
these calls is how "invoked exactly once" claims are expressed. -/
inductive PortCall where
  | tryAllocCall
  | freeChunkCall (c : ChunkHeader)
  | sendChunkCall (c : ChunkHeader)
  | offerCall
  | stopOfferCall
  | isOfferedCall
  | hasSubscribersCall
  | getLastChunkCall
deriving DecidableEq, Repr

/-- Modelled from the spec: the publisher-port state (§3, §4.2):
offer flag, cached last-sent chunk, the pool free list it allocates
from, the fan-out collaborator's "has subscribers" answer, and the
instrumentation log of port operations invoked so far. -/
structure PublisherPortState where
  offered : Bool
  lastChunk : Option ChunkHeader
  freePool : List ChunkHeader
  subscribers : Bool
  callLog : List PortCall
deriving DecidableEq, Repr

/-- Modelled from the spec: a freshly created port — initial offer state
`NOT_OFFERED`, nothing ever sent, a given pool free list (§4.2). -/
def initialPort (pool : List ChunkHeader) (subs : Bool) : PublisherPortState :=
  { offered := false, lastChunk := none, freePool := pool,
    subscribers := subs, callLog := [] }

namespace PublisherPortState

/-- Modelled from the spec: `try_allocate_chunk` delegates to the pool;
pops a free block when one exists, otherwise fails fast with
`RUNNING_OUT_OF_CHUNKS` (§4.1, §4.2). -/
def tryAllocateChunk (s : PublisherPortState) (_size : Nat) :
    Except AllocationError ChunkHeader × PublisherPortState :=
  match s.freePool with
  | [] =>
      (Except.error AllocationError.RUNNING_OUT_OF_CHUNKS,
        { s with callLog := s.callLog ++ [PortCall.tryAllocCall] })
  | c :: rest =>
      (Except.ok c,
        { s with freePool := rest,
                 callLog := s.callLog ++ [PortCall.tryAllocCall] })

/-- Modelled from the spec: `free_chunk` returns a chunk to the pool;
used only when a loaned Sample is discarded without publishing (§4.2). -/
def freeChunk (s : PublisherPortState) (c : ChunkHeader) : PublisherPortState :=
  { s with freePool := c :: s.freePool,
           callLog := s.callLog ++ [PortCall.freeChunkCall c] }

/-- Modelled from the spec: `send_chunk` transfers the chunk to the
subscriber queues (out of scope here) and updates `last_chunk` (§4.2). -/
def sendChunk (s : PublisherPortState) (c : ChunkHeader) : PublisherPortState :=
  { s with lastChunk := some c,
           callLog := s.callLog ++ [PortCall.sendChunkCall c] }

/-- Modelled from the spec: `offer()` — `NOT_OFFERED → OFFERED`,
idempotent if already offered (§4.2). -/
def offer (s : PublisherPortState) : PublisherPortState :=
  { s with offered := true,
           callLog := s.callLog ++ [PortCall.offerCall] }

/-- Modelled from the spec: `stop_offer()` — `OFFERED → NOT_OFFERED`,
idempotent if already not offered (§4.2). -/
def stopOffer (s : PublisherPortState) : PublisherPortState :=
  { s with offered := false,
           callLog := s.callLog ++ [PortCall.stopOfferCall] }

/-- Modelled from the spec: `is_offered()` reads the offer flag (§4.2). -/
def isOffered (s : PublisherPortState) : Bool × PublisherPortState :=
  (s.offered,
    { s with callLog := s.callLog ++ [PortCall.isOfferedCall] })

/-- Modelled from the spec: `has_subscribers()` delegates to the
fan-out queue collaborator, no local state (§4.2). -/
def hasSubscribers (s : PublisherPortState) : Bool × PublisherPortState :=
  (s.subscribers,
    { s with callLog := s.callLog ++ [PortCall.hasSubscribersCall] })

/-- Modelled from the spec: `get_last_chunk()` returns the cached
reference, or empty if nothing has ever been sent (§4.2). -/
def getLastChunk (s : PublisherPortState) : Option ChunkHeader × PublisherPortState :=
  (s.lastChunk,
    { s with callLog := s.callLog ++ [PortCall.getLastChunkCall] })

end PublisherPortState

/-- Modelled from the spec: the two distinct Sample construction paths —
owned-for-eventual-free (`loan`) versus borrowed read of history
(`previous_sample`) (§4.4, §9). -/
inductive SampleOrigin where
  | loaned
  | history
deriving DecidableEq, Repr

/-- Modelled from the spec: process-local RAII handle wrapping one chunk
plus a typed view of its payload (§3, §4.3).  `published` records that
ownership was relinquished by `publish()`. -/
structure Sample where
  chunk : ChunkHeader
  samplePtr : Nat
  origin : SampleOrigin
  published : Bool
deriving DecidableEq, Repr

namespace Sample

/-- Modelled from the spec: `get()` — the typed pointer to the payload
held by the Sample (§4.3). -/
def get (smp : Sample) : Nat := smp.samplePtr

/-- Modelled from the spec: `publish()` forwards the owned chunk to the
port's `send_chunk`, triggering the implicit `offer()` first when the
port is not currently offered (§4.2 side-effect policy, §4.3, §9);
the Sample relinquishes its ownership claim. -/
def publish (smp : Sample) (port : PublisherPortState) :
    Sample × PublisherPortState :=
  let port1 := if port.offered then port else port.offer
  ({ smp with published := true }, port1.sendChunk smp.chunk)

/-- Modelled from the spec: the Sample destructor — a loaned, unpublished
Sample calls `free_chunk` on the port exactly once; a published Sample
and a history Sample release nothing (§4.3, §4.4). -/
def drop (smp : Sample) (port : PublisherPortState) : PublisherPortState :=
  if smp.origin = SampleOrigin.loaned ∧ smp.published = false then
    port.freeChunk smp.chunk
  else
    port

end Sample

namespace BasePublisher

/-- Modelled from the spec: `loan(size)` delegates to the port's
`try_allocate_chunk`; on success wraps the chunk in a loaned Sample
whose payload view is the chunk's payload address; on failure it
returns the `AllocationError` unchanged (§4.4). -/
def loan (port : PublisherPortState) (size : Nat) :
    Except AllocationError Sample × PublisherPortState :=
  match port.tryAllocateChunk size with
  | (Except.error e, port') => (Except.error e, port')
  | (Except.ok c, port') =>
      (Except.ok
        { chunk := c, samplePtr := c.payload,
          origin := SampleOrigin.loaned, published := false },
        port')

/-- Modelled from the spec: `previous_sample()` asks the port for
`last_chunk`; if present wraps it in a history Sample whose release
must not re-free the chunk, else returns empty (§4.4). -/
def previousSample (port : PublisherPortState) :
    Option Sample × PublisherPortState :=
  match port.getLastChunk with
  | (some c, port') =>
      (some { chunk := c, samplePtr := c.payload,
              origin := SampleOrigin.history, published := false },
        port')
  | (none, port') => (none, port')

/-- Modelled from the spec: thin delegation to the port's `offer` (§4.4). -/
def offer (port : PublisherPortState) : PublisherPortState :=
  port.offer

/-- Modelled from the spec: thin delegation to the port's `stop_offer` (§4.4). -/
def stopOffer (port : PublisherPortState) : PublisherPortState :=
  port.stopOffer

/-- Modelled from the spec: thin delegation to the port's `is_offered` (§4.4). -/
def isOffered (port : PublisherPortState) : Bool × PublisherPortState :=
  port.isOffered

/-- Modelled from the spec: thin delegation to the port's
`has_subscribers` (§4.4). -/
def hasSubscribers (port : PublisherPortState) : Bool × PublisherPortState :=
  port.hasSubscribers

end BasePublisher

/-- Number of `freeChunk` invocations recorded for chunk `c`. -/
def freeCount (c : ChunkHeader) (log : List PortCall) : Nat :=
  (log.filter (fun k => decide (k = PortCall.freeChunkCall c))).length

/-- Number of `sendChunk` invocations recorded for chunk `c`. -/
def sendCount (c : ChunkHeader) (log : List PortCall) : Nat :=
  (log.filter (fun k => decide (k = PortCall.sendChunkCall c))).length

/-- Number of `offer` invocations recorded. -/
def offerCount (log : List PortCall) : Nat :=
  (log.filter (fun k => decide (k = PortCall.offerCall))).length

/-- Loan `n` Samples in sequence, collecting the successful ones. -/
def loanN : Nat → PublisherPortState → List Sample × PublisherPortState
  | 0, port => ([], port)
  | n + 1, port =>
      match BasePublisher.loan port headerSize with
      | (Except.error _, port') => loanN n port'
      | (Except.ok smp, port') =>
          (smp :: (loanN n port').1, (loanN n port').2)

/-- Drop every Sample of a list, in order. -/
def dropAll : List Sample → PublisherPortState → PublisherPortState
  | [], port => port
  | smp :: rest, port => dropAll rest (smp.drop port)

/-- Concrete test fixture: a chunk at address 0. -/
def chunkA : ChunkHeader := ⟨0⟩

/-- Concrete test fixture: a chunk at address 64. -/
def chunkB : ChunkHeader := ⟨64⟩

/-- Concrete test fixture: a fresh port over a two-chunk pool. -/
def portA : PublisherPortState := initialPort [chunkA, chunkB] false

/-- Concrete test fixture: the Sample a successful loan on `portA` yields. -/
def smpA : Sample :=
  { chunk := chunkA, samplePtr := chunkA.payload,
    origin := SampleOrigin.loaned, published := false }

/-- Concrete test fixture: the port after the loan on `portA`. -/
def portA1 : PublisherPortState := (BasePublisher.loan portA 8).2

/-- Concrete test fixture: the Sample after publishing `smpA`. -/
def smpA2 : Sample := (smpA.publish portA1).1

/-- Concrete test fixture: the port after publishing `smpA` on `portA1`. -/
def portA2 : PublisherPortState := (smpA.publish portA1).2

/-- Concrete test fixture: a port that has already sent `chunkB`. -/
def portSent : PublisherPortState :=
  { offered := true, lastChunk := some chunkB, freePool := [chunkA],
    subscribers := false, callLog := [] }

/-- Concrete test fixture: the history Sample `previousSample` yields on
`portSent`, and the port state after the query. -/
def smpHist : Sample :=
  { chunk := chunkB, samplePtr := chunkB.payload,
    origin := SampleOrigin.history, published := false }

/-- Concrete test fixture: `portSent` after the `previousSample` query. -/
def portSent1 : PublisherPortState := (BasePublisher.previousSample portSent).2

/-- Concrete test fixture: a fresh port over an exhausted pool. -/
def portEmpty : PublisherPortState := initialPort [] false

/-- A successful loan pops the head of the free pool and wraps it in a
fresh loaned Sample. -/
lemma loan_on_cons (q : PublisherPortState) (size : Nat) (c : ChunkHeader)
    (rest : List ChunkHeader) (hq : q.freePool = c :: rest) :
    BasePublisher.loan q size =
      (Except.ok
        { chunk := c, samplePtr := c.payload,
          origin := SampleOrigin.loaned, published := false },
        { q with freePool := rest,
                 callLog := q.callLog ++ [PortCall.tryAllocCall] }) := by
  simp [BasePublisher.loan, PublisherPortState.tryAllocateChunk, hq]

/-- A loan on an exhausted pool fails with `RUNNING_OUT_OF_CHUNKS` and
records only the allocation attempt. -/
lemma loan_on_nil (q : PublisherPortState) (size : Nat)
    (hq : q.freePool = []) :
    BasePublisher.loan q size =
      (Except.error AllocationError.RUNNING_OUT_OF_CHUNKS,
        { q with callLog := q.callLog ++ [PortCall.tryAllocCall] }) := by
  simp [BasePublisher.loan, PublisherPortState.tryAllocateChunk, hq]

/-- `loanN n` on a pool with at least `n` free chunks takes exactly `n`
chunks, returns `n` Samples, all loaned and unpublished. -/
lemma loanN_props :
    ∀ (n : Nat) (q : PublisherPortState), n ≤ q.freePool.length →
    (loanN n q).2.freePool.length + n = q.freePool.length
    ∧ (loanN n q).1.length = n
    ∧ ∀ smp ∈ (loanN n q).1,
        smp.origin = SampleOrigin.loaned ∧ smp.published = false := by
  intro n
  induction n with
  | zero =>
      intro q _
      simp [loanN]
  | succ k ih =>
      intro q h
      rcases hq : q.freePool with _ | ⟨c, rest⟩
      · rw [hq] at h
        simp at h
      · rw [hq] at h
        simp at h
        have h1st : (loanN (k + 1) q).1 =
            { chunk := c, samplePtr := c.payload,
              origin := SampleOrigin.loaned, published := false } ::
            (loanN k { q with freePool := rest,
                              callLog := q.callLog
                                ++ [PortCall.tryAllocCall] }).1 := by
          rw [loanN, loan_on_cons q headerSize c rest hq]
        have h2nd : (loanN (k + 1) q).2 =
            (loanN k { q with freePool := rest,
                              callLog := q.callLog
                                ++ [PortCall.tryAllocCall] }).2 := by
          rw [loanN, loan_on_cons q headerSize c rest hq]
        obtain ⟨ih1, ih2, ih3⟩ :=
          ih { q with freePool := rest,
                      callLog := q.callLog ++ [PortCall.tryAllocCall] }
             (by simpa using h)
        refine ⟨?_, ?_, ?_⟩
        · rw [h2nd]
          simp only [List.length_cons]
          dsimp only at ih1
          omega
        · rw [h1st]
          simpa using ih2
        · intro smp hmem
          rw [h1st] at hmem
          simp at hmem
          rcases hmem with hmem | hmem
          · subst hmem
            exact ⟨rfl, rfl⟩
          · exact ih3 smp hmem

/-- Dropping a list of loaned, unpublished Samples returns one chunk per
Sample to the pool. -/
lemma dropAll_length :
    ∀ (samples : List Sample) (q : PublisherPortState),
    (∀ smp ∈ samples,
        smp.origin = SampleOrigin.loaned ∧ smp.published = false) →
    (dropAll samples q).freePool.length
      = q.freePool.length + samples.length := by
  intro samples
  induction samples with
  | nil =>
      intro q _
      simp [dropAll]
  | cons smp rest ih =>
      intro q hall
      have h1 := hall smp (by simp)
      rw [dropAll, ih _ (fun s hs => hall s (by simp [hs]))]
      rw [Sample.drop, if_pos ⟨h1.1, h1.2⟩]
      simp [PublisherPortState.freeChunk]
      omega

/-- `loanN` then `dropAll` restores the pool free count. -/
lemma pool_restored (n : Nat) (q : PublisherPortState)
    (hn : n ≤ q.freePool.length) :
    (dropAll (loanN n q).1 (loanN n q).2).freePool.length
      = q.freePool.length := by
  obtain ⟨h1, h2, h3⟩ := loanN_props n q hn
  rw [dropAll_length _ _ h3, h2]
  omega

/-- When the port has recorded a last chunk, `previousSample` wraps it
in a history Sample. -/
lemma previousSample_on_some (q : PublisherPortState) (c : ChunkHeader)
    (hl : q.lastChunk = some c) :
    BasePublisher.previousSample q =
      (some { chunk := c, samplePtr := c.payload,
              origin := SampleOrigin.history, published := false },
        { q with callLog := q.callLog ++ [PortCall.getLastChunkCall] }) := by
  simp [BasePublisher.previousSample, PublisherPortState.getLastChunk, hl]

/-- When nothing has ever been sent, `previousSample` is empty. -/
lemma previousSample_on_none (q : PublisherPortState)
    (hl : q.lastChunk = none) :
    BasePublisher.previousSample q =
      (none,
        { q with callLog := q.callLog ++ [PortCall.getLastChunkCall] }) := by
  simp [BasePublisher.previousSample, PublisherPortState.getLastChunk, hl]

/-- Claim C1: a Sample obtained from a successful `loan` and dropped
without `publish` having been called invokes the port's `freeChunk`
exactly once with the loaned chunk (the drop appends exactly one
`freeChunk` record for that chunk to the port's call log), and loaning
`n` chunks and dropping all `n` Samples unpublished returns exactly `n`
chunks, restoring the pool's free count. -/
theorem loaned_sample_drop_frees_exactly_once
    (port : PublisherPortState) (size : Nat) (smp : Sample)
    (port' : PublisherPortState) (n : Nat) (q : PublisherPortState)
    (h : BasePublisher.loan port size = (Except.ok smp, port'))
    (hn : n ≤ q.freePool.length) :
    (smp.drop port').callLog
      = port'.callLog ++ [PortCall.freeChunkCall smp.chunk]
    ∧ (dropAll (loanN n q).1 (loanN n q).2).freePool.length
      = q.freePool.length := by
  refine ⟨?_, pool_restored n q hn⟩
  rcases hq : port.freePool with _ | ⟨c, rest⟩
  · rw [loan_on_nil port size hq] at h
    have := congrArg Prod.fst h
    simp at this
  · rw [loan_on_cons port size c rest hq] at h
    have hsmp := Except.ok.inj (congrArg Prod.fst h)
    subst hsmp
    simp [Sample.drop, PublisherPortState.freeChunk]

/-- Claim C2: publishing a loaned Sample invokes the port's `sendChunk`
exactly once with the owned chunk, invokes `freeChunk` zero times for
that chunk, and the Sample's subsequent destruction is a no-op
release. -/
theorem publish_sends_exactly_once
    (port : PublisherPortState) (size : Nat) (smp smp2 : Sample)
    (port1 port2 : PublisherPortState)
    (h : BasePublisher.loan port size = (Except.ok smp, port1))
    (hp : smp.publish port1 = (smp2, port2)) :
    sendCount smp.chunk port2.callLog
      = sendCount smp.chunk port1.callLog + 1
    ∧ freeCount smp.chunk port2.callLog
      = freeCount smp.chunk port1.callLog
    ∧ smp2.drop port2 = port2 := by
  have hsmp2 := congrArg Prod.fst hp
  have hport2 := congrArg Prod.snd hp
  dsimp [Sample.publish] at hsmp2 hport2
  subst hsmp2
  subst hport2
  refine ⟨?_, ?_, ?_⟩
  · by_cases ho : port1.offered
    · simp [ho, PublisherPortState.sendChunk, sendCount, List.filter_append]
    · simp [ho, PublisherPortState.offer, PublisherPortState.sendChunk,
        sendCount, List.filter_append]
  · by_cases ho : port1.offered
    · simp [ho, PublisherPortState.sendChunk, freeCount, List.filter_append]
    · simp [ho, PublisherPortState.offer, PublisherPortState.sendChunk,
        freeCount, List.filter_append]
  · simp [Sample.drop]

/-- Claim C3: when the port's `tryAllocateChunk` fails with
`RUNNING_OUT_OF_CHUNKS`, `loan` returns exactly that error, propagated
unchanged, and no Sample is constructed. -/
theorem loan_propagates_running_out_of_chunks
    (port : PublisherPortState) (size : Nat)
    (h : (port.tryAllocateChunk size).1
        = Except.error AllocationError.RUNNING_OUT_OF_CHUNKS) :
    (BasePublisher.loan port size).1
      = Except.error AllocationError.RUNNING_OUT_OF_CHUNKS := by
  rcases hq : port.freePool with _ | ⟨c, rest⟩
  · rw [loan_on_nil port size hq]
  · exfalso
    simp [PublisherPortState.tryAllocateChunk, hq] at h

/-- Claim C4: publishing while the port is not offered invokes the
port's `offer` (one more `offer` record in the call log), so
`isOffered` holds after the publish. -/
theorem publish_auto_offers
    (smp : Sample) (port : PublisherPortState)
    (h : port.offered = false) :
    offerCount (smp.publish port).2.callLog = offerCount port.callLog + 1
    ∧ (smp.publish port).2.offered = true := by
  simp [Sample.publish, h, PublisherPortState.offer,
    PublisherPortState.sendChunk, offerCount, List.filter_append]

/-- Claim C5: a successful `loan` yields a Sample whose payload pointer
`get` equals the payload address of exactly the chunk the port
allocated. -/
theorem loan_payload_addressing
    (port : PublisherPortState) (size : Nat) (smp : Sample)
    (port' : PublisherPortState)
    (h : BasePublisher.loan port size = (Except.ok smp, port')) :
    (port.tryAllocateChunk size).1 = Except.ok smp.chunk
    ∧ smp.get = smp.chunk.payload := by
  rcases hq : port.freePool with _ | ⟨c, rest⟩
  · rw [loan_on_nil port size hq] at h
    have := congrArg Prod.fst h
    simp at this
  · rw [loan_on_cons port size c rest hq] at h
    have hsmp := Except.ok.inj (congrArg Prod.fst h)
    subst hsmp
    exact ⟨by simp [PublisherPortState.tryAllocateChunk, hq], rfl⟩

/-- Claim C6: `previousSample` returns a populated optional exactly when
the port's `getLastChunk` returns a chunk, and an empty optional
exactly when `getLastChunk` is empty. -/
theorem previousSample_tracks_getLastChunk (port : PublisherPortState) :
    (BasePublisher.previousSample port).1.isSome
      = (port.getLastChunk).1.isSome := by
  rcases hl : port.lastChunk with _ | c
  · rw [previousSample_on_none port hl]
    simp [PublisherPortState.getLastChunk, hl]
  · rw [previousSample_on_some port c hl]
    simp [PublisherPortState.getLastChunk, hl]

/-- Claim C7: destroying a Sample obtained via `previousSample` does not
invoke `freeChunk` on the port and leaves the pool's free count
unchanged — the drop is a no-op, unlike the drop of a loaned Sample. -/
theorem previous_sample_drop_is_noop
    (port : PublisherPortState) (smp : Sample)
    (port' : PublisherPortState)
    (h : BasePublisher.previousSample port = (some smp, port')) :
    smp.drop port' = port'
    ∧ (smp.drop port').callLog = port'.callLog
    ∧ (smp.drop port').freePool.length = port'.freePool.length := by
  rcases hl : port.lastChunk with _ | c
  · rw [previousSample_on_none port hl] at h
    have := congrArg Prod.fst h
    simp at this
  · rw [previousSample_on_some port c hl] at h
    have hsmp := Option.some.inj (congrArg Prod.fst h)
    subst hsmp
    have hnoop : Sample.drop
        { chunk := c, samplePtr := c.payload,
          origin := SampleOrigin.history, published := false } port'
        = port' := by
      simp [Sample.drop]
    exact ⟨hnoop, by rw [hnoop], by rw [hnoop]⟩

/-- Claim C8: `offer`, `stopOffer`, `isOffered` and `hasSubscribers` on
the Base Publisher each invoke the corresponding port operation exactly
once (exactly one new call-log record) and change nothing else: the
pool, the last chunk and the subscriber view are untouched, and the
two queries return the port's state unmodified. -/
theorem delegation_fidelity (port : PublisherPortState) :
    BasePublisher.offer port
      = { port with offered := true,
                    callLog := port.callLog ++ [PortCall.offerCall] }
    ∧ BasePublisher.stopOffer port
      = { port with offered := false,
                    callLog := port.callLog ++ [PortCall.stopOfferCall] }
    ∧ BasePublisher.isOffered port
      = (port.offered,
          { port with callLog := port.callLog ++ [PortCall.isOfferedCall] })
    ∧ BasePublisher.hasSubscribers port
      = (port.subscribers,
          { port with
              callLog := port.callLog ++ [PortCall.hasSubscribersCall] }) :=
  ⟨rfl, rfl, rfl, rfl⟩

/-- Claim C9: the port's offer state machine has the two states of its
Boolean offer flag with initial state not-offered; `offer` moves any
state to offered and `stopOffer` moves any state to not-offered, so
each is idempotent (offer after offer equals offer, stopOffer after
stopOffer equals stopOffer, on the offer state). -/
theorem offer_state_machine (pool : List ChunkHeader) (subs : Bool)
    (s : PublisherPortState) :
    (initialPort pool subs).offered = false
    ∧ s.offer.offered = true
    ∧ s.stopOffer.offered = false
    ∧ s.offer.offer.offered = s.offer.offered
    ∧ s.stopOffer.stopOffer.offered = s.stopOffer.offered :=
  ⟨rfl, rfl, rfl, rfl, rfl⟩

/-- Claim C10: when `loan` fails, the only port operation performed is
the allocation attempt itself: the resulting port state is the input
state with exactly one `tryAllocateChunk` record appended — no
`freeChunk`, `sendChunk`, `offer` or `stopOffer`, and the pool, offer
flag and last chunk are unchanged. -/
theorem loan_error_leaves_state_unchanged
    (port : PublisherPortState) (size : Nat) (e : AllocationError)
    (h : (BasePublisher.loan port size).1 = Except.error e) :
    (BasePublisher.loan port size).2
      = { port with callLog := port.callLog ++ [PortCall.tryAllocCall] } := by
  rcases hq : port.freePool with _ | ⟨c, rest⟩
  · rw [loan_on_nil port size hq]
    simp [hq]
  · rw [loan_on_cons port size c rest hq] at h
    simp at h

/-- Witness for C1 at a concrete two-chunk port. -/
theorem loaned_sample_drop_frees_exactly_once_witness :
    BasePublisher.loan portA 8 = (Except.ok smpA, portA1)
    ∧ 2 ≤ portA.freePool.length
    ∧ ((smpA.drop portA1).callLog
        = portA1.callLog ++ [PortCall.freeChunkCall smpA.chunk]
      ∧ (dropAll (loanN 2 portA).1 (loanN 2 portA).2).freePool.length
        = portA.freePool.length) :=
  ⟨rfl, by decide,
    loaned_sample_drop_frees_exactly_once portA 8 smpA portA1 2 portA rfl
      (by decide)⟩

/-- Witness for C2 at a concrete loan-then-publish run. -/
theorem publish_sends_exactly_once_witness :
    BasePublisher.loan portA 8 = (Except.ok smpA, portA1)
    ∧ smpA.publish portA1 = (smpA2, portA2)
    ∧ (sendCount smpA.chunk portA2.callLog
        = sendCount smpA.chunk portA1.callLog + 1
      ∧ freeCount smpA.chunk portA2.callLog
        = freeCount smpA.chunk portA1.callLog
      ∧ smpA2.drop portA2 = portA2) :=
  ⟨rfl, rfl,
    publish_sends_exactly_once portA 8 smpA smpA2 portA1 portA2 rfl rfl⟩

/-- Witness for C3 at a port with an exhausted pool. -/
theorem loan_propagates_running_out_of_chunks_witness :
    (portEmpty.tryAllocateChunk 8).1
      = Except.error AllocationError.RUNNING_OUT_OF_CHUNKS
    ∧ (BasePublisher.loan portEmpty 8).1
      = Except.error AllocationError.RUNNING_OUT_OF_CHUNKS :=
  ⟨rfl, loan_propagates_running_out_of_chunks portEmpty 8 rfl⟩

/-- Witness for C4 at a concrete unoffered port. -/
theorem publish_auto_offers_witness :
    portA1.offered = false
    ∧ (offerCount (smpA.publish portA1).2.callLog
        = offerCount portA1.callLog + 1
      ∧ (smpA.publish portA1).2.offered = true) :=
  ⟨rfl, publish_auto_offers smpA portA1 rfl⟩

/-- Witness for C5 at a concrete successful loan. -/
theorem loan_payload_addressing_witness :
    BasePublisher.loan portA 8 = (Except.ok smpA, portA1)
    ∧ ((portA.tryAllocateChunk 8).1 = Except.ok smpA.chunk
      ∧ smpA.get = smpA.chunk.payload) :=
  ⟨rfl, loan_payload_addressing portA 8 smpA portA1 rfl⟩

/-- Witness for C7 at a port that has already sent a chunk. -/
theorem previous_sample_drop_is_noop_witness :
    BasePublisher.previousSample portSent = (some smpHist, portSent1)
    ∧ (smpHist.drop portSent1 = portSent1
      ∧ (smpHist.drop portSent1).callLog = portSent1.callLog
      ∧ (smpHist.drop portSent1).freePool.length
        = portSent1.freePool.length) :=
  ⟨rfl, previous_sample_drop_is_noop portSent smpHist portSent1 rfl⟩

/-- Witness for C10 at a port with an exhausted pool. -/
theorem loan_error_leaves_state_unchanged_witness :
    (BasePublisher.loan portEmpty 8).1
      = Except.error AllocationError.RUNNING_OUT_OF_CHUNKS
    ∧ (BasePublisher.loan portEmpty 8).2
      = { portEmpty with
            callLog := portEmpty.callLog ++ [PortCall.tryAllocCall] } :=
  ⟨rfl,
    loan_error_leaves_state_unchanged portEmpty 8
      AllocationError.RUNNING_OUT_OF_CHUNKS rfl⟩

end Iceoryx
